import Mathlib

/-!
Shallow embedding of `quic/QuicException.cpp` (mvfst error taxonomy and
rendering), together with theorems settling the spec claims about it.

Machine integers are modelled as `Nat` with explicit reduction modulo the
underlying type's modulus where the C++ code can wrap or truncate.  The
external handshake-layer (fizz) alert renderer is an external collaborator:
it is taken as a parameter `fizzAlertToString : Nat → String`; its argument
is the value of the `fizz::AlertDescription` (underlying type `uint8_t`)
produced by the `static_cast` at the call site, hence always `< 256`.

Each rendering function returns `String × Nat`, the second component counting
the `LOG(WARNING)` diagnostic emissions of that call (0 or 1).
-/

/-- Modulus of `uint64_t`. Modelled from the spec: the underlying integer type
of `TransportErrorCode` is declared in the header `QuicException.h`, which is
not among the provided sources; the spec requires the values to match the
governing wire specification, whose error codes need a 64-bit type. -/
def uint64Mod : Nat := 18446744073709551616

/-- Modulus of `uint8_t`, the underlying type of `fizz::AlertDescription`
(a one-byte TLS alert description, owned by the external handshake layer). -/
def uint8Mod : Nat := 256

namespace TransportErrorCode

/-- Modelled from the spec: numeric value of `TransportErrorCode::NO_ERROR`
(the enum declaration is in the missing header; values follow the governing
wire specification, which the spec says they must match exactly). -/
def NO_ERROR : Nat := 0x0

/-- Modelled from the spec: numeric value of `INTERNAL_ERROR`. -/
def INTERNAL_ERROR : Nat := 0x1

/-- Modelled from the spec: numeric value of `SERVER_BUSY`. -/
def SERVER_BUSY : Nat := 0x2

/-- Modelled from the spec: numeric value of `FLOW_CONTROL_ERROR`. -/
def FLOW_CONTROL_ERROR : Nat := 0x3

/-- Modelled from the spec: numeric value of `STREAM_LIMIT_ERROR`. -/
def STREAM_LIMIT_ERROR : Nat := 0x4

/-- Modelled from the spec: numeric value of `STREAM_STATE_ERROR`. -/
def STREAM_STATE_ERROR : Nat := 0x5

/-- Modelled from the spec: numeric value of `FINAL_SIZE_ERROR`. -/
def FINAL_SIZE_ERROR : Nat := 0x6

/-- Modelled from the spec: numeric value of `FRAME_ENCODING_ERROR`. -/
def FRAME_ENCODING_ERROR : Nat := 0x7

/-- Modelled from the spec: numeric value of `TRANSPORT_PARAMETER_ERROR`. -/
def TRANSPORT_PARAMETER_ERROR : Nat := 0x8

/-- Modelled from the spec: numeric value of `PROTOCOL_VIOLATION`. -/
def PROTOCOL_VIOLATION : Nat := 0xA

/-- Modelled from the spec: numeric value of `INVALID_TOKEN`. -/
def INVALID_TOKEN : Nat := 0xB

/-- Modelled from the spec: numeric value of `INVALID_MIGRATION`. -/
def INVALID_MIGRATION : Nat := 0xC

/-- Modelled from the spec: lower bound of the reserved crypto sub-range,
`CRYPTO_ERROR_base + externalAlertOrdinal` embedding (wire value 0x100). -/
def CRYPTO_ERROR : Nat := 0x100

/-- Modelled from the spec: inclusive upper bound of the reserved crypto
sub-range (wire value 0x1FF). -/
def CRYPTO_ERROR_MAX : Nat := 0x1FF

end TransportErrorCode

/-- The raw values of the named `TransportErrorCode` enumerators, i.e. the
case labels of the `switch` in `toString(TransportErrorCode)`. -/
def namedTransportCodes : List Nat :=
  [TransportErrorCode.NO_ERROR, TransportErrorCode.INTERNAL_ERROR,
   TransportErrorCode.SERVER_BUSY, TransportErrorCode.FLOW_CONTROL_ERROR,
   TransportErrorCode.STREAM_LIMIT_ERROR, TransportErrorCode.STREAM_STATE_ERROR,
   TransportErrorCode.FINAL_SIZE_ERROR, TransportErrorCode.FRAME_ENCODING_ERROR,
   TransportErrorCode.TRANSPORT_PARAMETER_ERROR, TransportErrorCode.PROTOCOL_VIOLATION,
   TransportErrorCode.INVALID_TOKEN, TransportErrorCode.INVALID_MIGRATION,
   TransportErrorCode.CRYPTO_ERROR, TransportErrorCode.CRYPTO_ERROR_MAX]

/-- Embedding of `cryptoErrorToString(TransportErrorCode)`:
`codeVal - CRYPTO_ERROR` is computed in the wrap-around arithmetic of the
underlying `uint64_t`, and the `static_cast<fizz::AlertDescription>` at the
call of the external renderer truncates the result to the alert type's
`uint8_t` underlying type (reduction modulo 256). -/
def cryptoErrorToString (fizzAlertToString : Nat → String) (code : Nat) : String :=
  "Crypto error: " ++
    fizzAlertToString
      (((code + (uint64Mod - TransportErrorCode.CRYPTO_ERROR)) % uint64Mod) % uint8Mod)

/-- Embedding of `std::string toString(TransportErrorCode code)`: the `switch`
over the named enumerators (an `if`-chain of equality tests on the raw value,
in source case order), then the bitmask fallback
`(codeVal & CRYPTO_ERROR_MAX) == codeVal`, then the generic unknown branch.
The second component counts `LOG(WARNING)` emissions. -/
def toStringTransportErrorCode (fizzAlertToString : Nat → String) (code : Nat) :
    String × Nat :=
  if code = TransportErrorCode.NO_ERROR then ("No Error", 0)
  else if code = TransportErrorCode.INTERNAL_ERROR then ("Internal Error", 0)
  else if code = TransportErrorCode.FLOW_CONTROL_ERROR then ("Flow control error", 0)
  else if code = TransportErrorCode.STREAM_LIMIT_ERROR then ("Stream limit error", 0)
  else if code = TransportErrorCode.STREAM_STATE_ERROR then ("Stream State error", 0)
  else if code = TransportErrorCode.FINAL_SIZE_ERROR then ("Final offset error", 0)
  else if code = TransportErrorCode.FRAME_ENCODING_ERROR then ("Frame format error", 0)
  else if code = TransportErrorCode.TRANSPORT_PARAMETER_ERROR then
    ("Transport parameter error", 0)
  else if code = TransportErrorCode.PROTOCOL_VIOLATION then ("Protocol violation", 0)
  else if code = TransportErrorCode.INVALID_MIGRATION then ("Invalid migration", 0)
  else if code = TransportErrorCode.SERVER_BUSY then ("Server busy", 0)
  else if code = TransportErrorCode.INVALID_TOKEN then ("Invalid token", 0)
  else if code = TransportErrorCode.CRYPTO_ERROR then
    (cryptoErrorToString fizzAlertToString code, 0)
  else if code = TransportErrorCode.CRYPTO_ERROR_MAX then
    (cryptoErrorToString fizzAlertToString code, 0)
  else if code &&& TransportErrorCode.CRYPTO_ERROR_MAX = code then
    (cryptoErrorToString fizzAlertToString code, 0)
  else ("Unknown error", 1)

namespace LocalErrorCode

/-- Modelled from the spec: numeric values of the `LocalErrorCode` enumerators
(the enum declaration is in the missing header; the local code space is
implementation-private, never serialized, so the enumerators are assigned
sequentially from 0 in declaration order). -/
def NO_ERROR : Nat := 0

/-- Modelled from the spec: numeric value of `CONNECT_FAILED`. -/
def CONNECT_FAILED : Nat := 1

/-- Modelled from the spec: numeric value of `CODEC_ERROR`. -/
def CODEC_ERROR : Nat := 2

/-- Modelled from the spec: numeric value of `STREAM_CLOSED`. -/
def STREAM_CLOSED : Nat := 3

/-- Modelled from the spec: numeric value of `STREAM_NOT_EXISTS`. -/
def STREAM_NOT_EXISTS : Nat := 4

/-- Modelled from the spec: numeric value of `CREATING_EXISTING_STREAM`. -/
def CREATING_EXISTING_STREAM : Nat := 5

/-- Modelled from the spec: numeric value of `SHUTTING_DOWN`. -/
def SHUTTING_DOWN : Nat := 6

/-- Modelled from the spec: numeric value of `RESET_CRYPTO_STREAM`. -/
def RESET_CRYPTO_STREAM : Nat := 7

/-- Modelled from the spec: numeric value of `CWND_OVERFLOW`. -/
def CWND_OVERFLOW : Nat := 8

/-- Modelled from the spec: numeric value of `INFLIGHT_BYTES_OVERFLOW`. -/
def INFLIGHT_BYTES_OVERFLOW : Nat := 9

/-- Modelled from the spec: numeric value of `LOST_BYTES_OVERFLOW`. -/
def LOST_BYTES_OVERFLOW : Nat := 10

/-- Modelled from the spec: numeric value of `NEW_VERSION_NEGOTIATED`. -/
def NEW_VERSION_NEGOTIATED : Nat := 11

/-- Modelled from the spec: numeric value of `INVALID_WRITE_CALLBACK`. -/
def INVALID_WRITE_CALLBACK : Nat := 12

/-- Modelled from the spec: numeric value of `CALLBACK_ALREADY_INSTALLED`. -/
def CALLBACK_ALREADY_INSTALLED : Nat := 13

/-- Modelled from the spec: numeric value of `TLS_HANDSHAKE_FAILED`. -/
def TLS_HANDSHAKE_FAILED : Nat := 14

/-- Modelled from the spec: numeric value of `APP_ERROR`. -/
def APP_ERROR : Nat := 15

/-- Modelled from the spec: numeric value of `INTERNAL_ERROR`. -/
def INTERNAL_ERROR : Nat := 16

/-- Modelled from the spec: numeric value of `TRANSPORT_ERROR`. -/
def TRANSPORT_ERROR : Nat := 17

/-- Modelled from the spec: numeric value of `INVALID_WRITE_DATA`. -/
def INVALID_WRITE_DATA : Nat := 18

/-- Modelled from the spec: numeric value of `INVALID_STATE_TRANSITION`. -/
def INVALID_STATE_TRANSITION : Nat := 19

/-- Modelled from the spec: numeric value of `CONNECTION_CLOSED`. -/
def CONNECTION_CLOSED : Nat := 20

/-- Modelled from the spec: numeric value of `EARLY_DATA_REJECTED`. -/
def EARLY_DATA_REJECTED : Nat := 21

/-- Modelled from the spec: numeric value of `CONNECTION_RESET`. -/
def CONNECTION_RESET : Nat := 22

/-- Modelled from the spec: numeric value of `IDLE_TIMEOUT`. -/
def IDLE_TIMEOUT : Nat := 23

/-- Modelled from the spec: numeric value of `PACKET_NUMBER_ENCODING`. -/
def PACKET_NUMBER_ENCODING : Nat := 24

/-- Modelled from the spec: numeric value of `INVALID_OPERATION`. -/
def INVALID_OPERATION : Nat := 25

/-- Modelled from the spec: numeric value of `STREAM_LIMIT_EXCEEDED`. -/
def STREAM_LIMIT_EXCEEDED : Nat := 26

/-- Modelled from the spec: numeric value of `CONNECTION_ABANDONED`. -/
def CONNECTION_ABANDONED : Nat := 27

/-- Modelled from the spec: numeric value of `KNOB_FRAME_UNSUPPORTED`. -/
def KNOB_FRAME_UNSUPPORTED : Nat := 28

end LocalErrorCode

/-- The raw values of the named `LocalErrorCode` enumerators, i.e. the case
labels of the `switch` in `toString(LocalErrorCode)`. -/
def namedLocalCodes : List Nat :=
  [LocalErrorCode.NO_ERROR, LocalErrorCode.CONNECT_FAILED, LocalErrorCode.CODEC_ERROR,
   LocalErrorCode.STREAM_CLOSED, LocalErrorCode.STREAM_NOT_EXISTS,
   LocalErrorCode.CREATING_EXISTING_STREAM, LocalErrorCode.SHUTTING_DOWN,
   LocalErrorCode.RESET_CRYPTO_STREAM, LocalErrorCode.CWND_OVERFLOW,
   LocalErrorCode.INFLIGHT_BYTES_OVERFLOW, LocalErrorCode.LOST_BYTES_OVERFLOW,
   LocalErrorCode.NEW_VERSION_NEGOTIATED, LocalErrorCode.INVALID_WRITE_CALLBACK,
   LocalErrorCode.CALLBACK_ALREADY_INSTALLED, LocalErrorCode.TLS_HANDSHAKE_FAILED,
   LocalErrorCode.APP_ERROR, LocalErrorCode.INTERNAL_ERROR,
   LocalErrorCode.TRANSPORT_ERROR, LocalErrorCode.INVALID_WRITE_DATA,
   LocalErrorCode.INVALID_STATE_TRANSITION, LocalErrorCode.CONNECTION_CLOSED,
   LocalErrorCode.EARLY_DATA_REJECTED, LocalErrorCode.CONNECTION_RESET,
   LocalErrorCode.IDLE_TIMEOUT, LocalErrorCode.PACKET_NUMBER_ENCODING,
   LocalErrorCode.INVALID_OPERATION, LocalErrorCode.STREAM_LIMIT_EXCEEDED,
   LocalErrorCode.CONNECTION_ABANDONED, LocalErrorCode.KNOB_FRAME_UNSUPPORTED]

/-- Embedding of `folly::StringPiece toString(LocalErrorCode code)`: exhaustive
`switch` over the named enumerators in source case order, then the
`LOG(WARNING)` plus "Unknown error" fallthrough.  The second component counts
`LOG(WARNING)` emissions. -/
def toStringLocalErrorCode (code : Nat) : String × Nat :=
  if code = LocalErrorCode.NO_ERROR then ("No Error", 0)
  else if code = LocalErrorCode.CONNECT_FAILED then ("Connect failed", 0)
  else if code = LocalErrorCode.CODEC_ERROR then ("Codec Error", 0)
  else if code = LocalErrorCode.STREAM_CLOSED then ("Stream is closed", 0)
  else if code = LocalErrorCode.STREAM_NOT_EXISTS then ("Stream does not exist", 0)
  else if code = LocalErrorCode.CREATING_EXISTING_STREAM then
    ("Creating an existing stream", 0)
  else if code = LocalErrorCode.SHUTTING_DOWN then ("Shutting down", 0)
  else if code = LocalErrorCode.RESET_CRYPTO_STREAM then ("Reset the crypto stream", 0)
  else if code = LocalErrorCode.CWND_OVERFLOW then ("CWND overflow", 0)
  else if code = LocalErrorCode.INFLIGHT_BYTES_OVERFLOW then
    ("Inflight bytes overflow", 0)
  else if code = LocalErrorCode.LOST_BYTES_OVERFLOW then ("Lost bytes overflow", 0)
  else if code = LocalErrorCode.NEW_VERSION_NEGOTIATED then
    ("New version negotiatied", 0)
  else if code = LocalErrorCode.INVALID_WRITE_CALLBACK then
    ("Invalid write callback", 0)
  else if code = LocalErrorCode.CALLBACK_ALREADY_INSTALLED then
    ("Callback already installed", 0)
  else if code = LocalErrorCode.TLS_HANDSHAKE_FAILED then ("TLS handshake failed", 0)
  else if code = LocalErrorCode.APP_ERROR then ("App error", 0)
  else if code = LocalErrorCode.INTERNAL_ERROR then ("Internal error", 0)
  else if code = LocalErrorCode.TRANSPORT_ERROR then ("Transport error", 0)
  else if code = LocalErrorCode.INVALID_WRITE_DATA then ("Invalid write data", 0)
  else if code = LocalErrorCode.INVALID_STATE_TRANSITION then
    ("Invalid state transition", 0)
  else if code = LocalErrorCode.CONNECTION_CLOSED then ("Connection closed", 0)
  else if code = LocalErrorCode.EARLY_DATA_REJECTED then ("Early data rejected", 0)
  else if code = LocalErrorCode.CONNECTION_RESET then ("Connection reset", 0)
  else if code = LocalErrorCode.IDLE_TIMEOUT then ("Idle timeout", 0)
  else if code = LocalErrorCode.PACKET_NUMBER_ENCODING then
    ("Packet number encoding", 0)
  else if code = LocalErrorCode.INVALID_OPERATION then ("Invalid operation", 0)
  else if code = LocalErrorCode.STREAM_LIMIT_EXCEEDED then ("Stream limit exceeded", 0)
  else if code = LocalErrorCode.CONNECTION_ABANDONED then ("Connection abandoned", 0)
  else if code = LocalErrorCode.KNOB_FRAME_UNSUPPORTED then
    ("Knob Frame Not Supported", 0)
  else ("Unknown error", 1)

/-- Modelled from the spec: the application-layer "no error" sentinel
(`GenericApplicationErrorCode::NO_ERROR`, declared in a missing header); only
its identity matters to this core, its numeric value is opaque. -/
def GenericApplicationErrorCode.NO_ERROR : Nat := 0

/-- Embedding of the tagged union `QuicErrorCode`: exactly one of the three
code kinds is held, with its raw numeric value. -/
inductive QuicErrorCode where
  | ApplicationErrorCode_E (code : Nat)
  | LocalErrorCode_E (code : Nat)
  | TransportErrorCode_E (code : Nat)
deriving DecidableEq, Repr

/-- Embedding of the discriminant enumeration `QuicErrorCode::Type`. -/
inductive QuicErrorCodeType where
  | ApplicationErrorCode_E
  | LocalErrorCode_E
  | TransportErrorCode_E
deriving DecidableEq, Repr

/-- Embedding of `QuicErrorCode::type()`: which variant is active. -/
def QuicErrorCode.type_ : QuicErrorCode → QuicErrorCodeType
  | .ApplicationErrorCode_E _ => .ApplicationErrorCode_E
  | .LocalErrorCode_E _ => .LocalErrorCode_E
  | .TransportErrorCode_E _ => .TransportErrorCode_E

/-- Embedding of `QuicErrorCode::asApplicationErrorCode()`: present on the
application variant, absent otherwise. -/
def QuicErrorCode.asApplicationErrorCode : QuicErrorCode → Option Nat
  | .ApplicationErrorCode_E c => some c
  | _ => none

/-- Embedding of `QuicErrorCode::asLocalErrorCode()`. -/
def QuicErrorCode.asLocalErrorCode : QuicErrorCode → Option Nat
  | .LocalErrorCode_E c => some c
  | _ => none

/-- Embedding of `QuicErrorCode::asTransportErrorCode()`. -/
def QuicErrorCode.asTransportErrorCode : QuicErrorCode → Option Nat
  | .TransportErrorCode_E c => some c
  | _ => none

/-- Embedding of `std::string toString(QuicErrorCode code)`: dispatch on the
active variant; the application "no error" sentinel renders as "No Error",
other application codes render their decimal form
(`folly::to<std::string>` of the underlying integer, i.e. `Nat.repr`);
local and transport codes delegate to their renderers. -/
def toStringQuicErrorCode (fizzAlertToString : Nat → String) :
    QuicErrorCode → String × Nat
  | .ApplicationErrorCode_E c =>
      if c = GenericApplicationErrorCode.NO_ERROR then ("No Error", 0)
      else (Nat.repr c, 0)
  | .LocalErrorCode_E c => toStringLocalErrorCode c
  | .TransportErrorCode_E c => toStringTransportErrorCode fizzAlertToString c

/-- Embedding of
`std::string toString(const std::pair<QuicErrorCode, folly::Optional<folly::StringPiece>>&)`:
a kind prefix, the rendered code, ", ", then the optional free text appended
verbatim when present.  Modelled from the spec for the application branch: the
source's call `toString(*asApplicationErrorCode())` resolves through the
unified-code renderer (the per-application-code overload is declared in the
missing header), so the application code is rendered as in
`toStringQuicErrorCode`. -/
def toStringQuicErrorPair (fizzAlertToString : Nat → String)
    (error : QuicErrorCode × Option String) : String × Nat :=
  let rendered : String × Nat :=
    match error.1 with
    | .ApplicationErrorCode_E c =>
        let inner := toStringQuicErrorCode fizzAlertToString (.ApplicationErrorCode_E c)
        ("ApplicationError: " ++ inner.1 ++ ", ", inner.2)
    | .LocalErrorCode_E c =>
        let inner := toStringLocalErrorCode c
        ("LocalError: " ++ inner.1 ++ ", ", inner.2)
    | .TransportErrorCode_E c =>
        let inner := toStringTransportErrorCode fizzAlertToString c
        ("TransportError: " ++ inner.1 ++ ", ", inner.2)
  match error.2 with
  | some text => (rendered.1 ++ text, rendered.2)
  | none => rendered

/-- Embedding of `QuicTransportException`: message, transport code, and the
optional offending frame type (`folly::Optional<FrameType>`, default-empty in
the two-argument constructors). -/
structure QuicTransportException where
  msg : String
  errCode : Nat
  frameType : Option Nat
deriving DecidableEq, Repr

/-- Embedding of the two-argument `QuicTransportException` constructors
(`std::string` and `const char*` overloads coincide): the frame-type member is
left default-constructed, i.e. absent. -/
def QuicTransportException.mkNoFrame (msg : String) (errCode : Nat) :
    QuicTransportException :=
  { msg := msg, errCode := errCode, frameType := none }

/-- Embedding of the three-argument `QuicTransportException` constructors. -/
def QuicTransportException.mkWithFrame (msg : String) (errCode : Nat)
    (frameType : Nat) : QuicTransportException :=
  { msg := msg, errCode := errCode, frameType := some frameType }

/-- Embedding of `QuicInternalException`: message and local code (the
`std::string`, `const char*` and `folly::StringPiece` constructor overloads
coincide on the stored message). -/
structure QuicInternalException where
  msg : String
  errorCode : Nat
deriving DecidableEq, Repr

/-- Embedding of the `QuicInternalException` constructors. -/
def QuicInternalException.mk_ (msg : String) (errorCode : Nat) :
    QuicInternalException :=
  { msg := msg, errorCode := errorCode }

/-- Embedding of `QuicApplicationException`: message and application code. -/
structure QuicApplicationException where
  msg : String
  errorCode : Nat
deriving DecidableEq, Repr

/-- Embedding of the `QuicApplicationException` constructors. -/
def QuicApplicationException.mk_ (msg : String) (errorCode : Nat) :
    QuicApplicationException :=
  { msg := msg, errorCode := errorCode }

/-- The bit pattern of `CRYPTO_ERROR_MAX` is `2^9 - 1`, so the source's
bitmask is a truncation to the low nine bits. -/
theorem land_CRYPTO_ERROR_MAX_eq_mod (v : Nat) :
    v &&& TransportErrorCode.CRYPTO_ERROR_MAX = v % 512 := by
  have h := Nat.and_pow_two_sub_one_eq_mod v 9
  norm_num at h
  simpa [TransportErrorCode.CRYPTO_ERROR_MAX] using h

/-- The source's bitmask test `(codeVal & CRYPTO_ERROR_MAX) == codeVal` holds
exactly when the raw value is at most `CRYPTO_ERROR_MAX`. -/
theorem mask_le_iff (v : Nat) :
    (v &&& TransportErrorCode.CRYPTO_ERROR_MAX = v) ↔
      v ≤ TransportErrorCode.CRYPTO_ERROR_MAX := by
  rw [land_CRYPTO_ERROR_MAX_eq_mod]
  simp only [TransportErrorCode.CRYPTO_ERROR_MAX]
  omega

/-- On a raw value matching none of the named cases, the transport renderer
reduces to the bitmask test between the crypto fallback and the generic
unknown branch. -/
theorem toStringTransportErrorCode_unnamed (f : Nat → String) (v : Nat)
    (h : v ∉ namedTransportCodes) :
    toStringTransportErrorCode f v =
      if v &&& TransportErrorCode.CRYPTO_ERROR_MAX = v then
        (cryptoErrorToString f v, 0)
      else ("Unknown error", 1) := by
  simp only [namedTransportCodes, List.mem_cons, List.not_mem_nil, or_false,
    TransportErrorCode.NO_ERROR, TransportErrorCode.INTERNAL_ERROR,
    TransportErrorCode.SERVER_BUSY, TransportErrorCode.FLOW_CONTROL_ERROR,
    TransportErrorCode.STREAM_LIMIT_ERROR, TransportErrorCode.STREAM_STATE_ERROR,
    TransportErrorCode.FINAL_SIZE_ERROR, TransportErrorCode.FRAME_ENCODING_ERROR,
    TransportErrorCode.TRANSPORT_PARAMETER_ERROR, TransportErrorCode.PROTOCOL_VIOLATION,
    TransportErrorCode.INVALID_TOKEN, TransportErrorCode.INVALID_MIGRATION,
    TransportErrorCode.CRYPTO_ERROR, TransportErrorCode.CRYPTO_ERROR_MAX] at h
  push_neg at h
  obtain ⟨h0, h1, h2, h3, h4, h5, h6, h7, h8, h9, h10, h11, h12, h13⟩ := h
  simp [toStringTransportErrorCode, TransportErrorCode.NO_ERROR,
    TransportErrorCode.INTERNAL_ERROR, TransportErrorCode.SERVER_BUSY,
    TransportErrorCode.FLOW_CONTROL_ERROR, TransportErrorCode.STREAM_LIMIT_ERROR,
    TransportErrorCode.STREAM_STATE_ERROR, TransportErrorCode.FINAL_SIZE_ERROR,
    TransportErrorCode.FRAME_ENCODING_ERROR, TransportErrorCode.TRANSPORT_PARAMETER_ERROR,
    TransportErrorCode.PROTOCOL_VIOLATION, TransportErrorCode.INVALID_TOKEN,
    TransportErrorCode.INVALID_MIGRATION, TransportErrorCode.CRYPTO_ERROR,
    TransportErrorCode.CRYPTO_ERROR_MAX, h0, h1, h2, h3, h4, h5, h6, h7, h8, h9,
    h10, h11, h12, h13]

/-- C1 counterexample: the raw value 13 (0x0D) matches no named case and lies
strictly below `CRYPTO_ERROR`, hence outside the inclusive sub-range
[`CRYPTO_ERROR`, `CRYPTO_ERROR_MAX`], yet the renderer takes the crypto
fallback rather than the generic unknown branch, refuting the claimed
range-exactness of the dispatch. -/
theorem c1_range_dispatch_counterexample :
    13 ∉ namedTransportCodes ∧
    ¬ (TransportErrorCode.CRYPTO_ERROR ≤ 13 ∧ 13 ≤ TransportErrorCode.CRYPTO_ERROR_MAX) ∧
    toStringTransportErrorCode (fun _ => "ALERT") 13 = ("Crypto error: ALERT", 0) ∧
    toStringTransportErrorCode (fun _ => "ALERT") 13 ≠ ("Unknown error", 1) := by
  decide

/-- C1 (amended): for every raw value that matches none of the named cases,
the transport renderer falls back to the crypto renderer exactly when the
bitmask test `(v AND CRYPTO_ERROR_MAX) == v` holds, which is exactly when
`v ≤ CRYPTO_ERROR_MAX` — a condition that also allows for unnamed values strictly
below `CRYPTO_ERROR` — and otherwise falls through to the generic unknown
branch; the dispatch order is: named cases first, then bitmask fallback, then
generic unknown. -/
theorem c1_range_dispatch_amended (f : Nat → String) (v : Nat)
    (h : v ∉ namedTransportCodes) :
    ((v &&& TransportErrorCode.CRYPTO_ERROR_MAX = v) ↔
      v ≤ TransportErrorCode.CRYPTO_ERROR_MAX)
    ∧ (v ≤ TransportErrorCode.CRYPTO_ERROR_MAX →
        toStringTransportErrorCode f v = (cryptoErrorToString f v, 0))
    ∧ (TransportErrorCode.CRYPTO_ERROR_MAX < v →
        toStringTransportErrorCode f v = ("Unknown error", 1)) := by
  have hmask := mask_le_iff v
  have hun := toStringTransportErrorCode_unnamed f v h
  refine ⟨hmask, ?_, ?_⟩
  · intro hle
    rw [hun, if_pos (hmask.mpr hle)]
  · intro hgt
    rw [hun, if_neg]
    intro hc
    have := hmask.mp hc
    omega

/-- C1 witness: the amended dispatch at the concrete unnamed in-range value
0x142. -/
theorem c1_range_dispatch_amended_witness :
    toStringTransportErrorCode (fun _ => "") 322 =
      (cryptoErrorToString (fun _ => "") 322, 0) :=
  (c1_range_dispatch_amended (fun _ => "") 322 (by decide)).2.1 (by decide)

/-- C2: for every external alert ordinal A with `CRYPTO_ERROR + A` not
exceeding `CRYPTO_ERROR_MAX`, rendering the transport code `CRYPTO_ERROR + A`
returns "Crypto error: " concatenated with the external renderer applied to A
(with no diagnostic emission), and subtracting the `CRYPTO_ERROR` base from
the encoded value — both as plain subtraction and as the wrap-around
subtraction plus alert-type truncation the code performs — recovers the
original ordinal A exactly. -/
theorem c2_crypto_roundtrip (f : Nat → String) (A : Nat)
    (hA : TransportErrorCode.CRYPTO_ERROR + A ≤ TransportErrorCode.CRYPTO_ERROR_MAX) :
    toStringTransportErrorCode f (TransportErrorCode.CRYPTO_ERROR + A) =
      ("Crypto error: " ++ f A, 0)
    ∧ (TransportErrorCode.CRYPTO_ERROR + A) - TransportErrorCode.CRYPTO_ERROR = A
    ∧ ((TransportErrorCode.CRYPTO_ERROR + A +
          (uint64Mod - TransportErrorCode.CRYPTO_ERROR)) % uint64Mod) % uint8Mod = A := by
  simp only [TransportErrorCode.CRYPTO_ERROR, TransportErrorCode.CRYPTO_ERROR_MAX,
    uint64Mod, uint8Mod] at hA ⊢
  have key : toStringTransportErrorCode f (256 + A) =
      (cryptoErrorToString f (256 + A), 0) := by
    by_cases h0 : A = 0
    · subst h0; rfl
    · by_cases h255 : A = 255
      · subst h255; rfl
      · have hmem : (256 + A) ∉ namedTransportCodes := by
          simp only [namedTransportCodes, List.mem_cons, List.not_mem_nil, or_false,
            TransportErrorCode.NO_ERROR, TransportErrorCode.INTERNAL_ERROR,
            TransportErrorCode.SERVER_BUSY, TransportErrorCode.FLOW_CONTROL_ERROR,
            TransportErrorCode.STREAM_LIMIT_ERROR, TransportErrorCode.STREAM_STATE_ERROR,
            TransportErrorCode.FINAL_SIZE_ERROR, TransportErrorCode.FRAME_ENCODING_ERROR,
            TransportErrorCode.TRANSPORT_PARAMETER_ERROR,
            TransportErrorCode.PROTOCOL_VIOLATION, TransportErrorCode.INVALID_TOKEN,
            TransportErrorCode.INVALID_MIGRATION, TransportErrorCode.CRYPTO_ERROR,
            TransportErrorCode.CRYPTO_ERROR_MAX]
          omega
        rw [toStringTransportErrorCode_unnamed f (256 + A) hmem,
          if_pos ((mask_le_iff (256 + A)).mpr (by
            simp only [TransportErrorCode.CRYPTO_ERROR_MAX]
            omega))]
  refine ⟨?_, by omega, by omega⟩
  rw [key]
  simp only [cryptoErrorToString, uint64Mod, uint8Mod, TransportErrorCode.CRYPTO_ERROR]
  rw [show ((256 + A + (18446744073709551616 - 256)) % 18446744073709551616) % 256 = A
    by omega]

/-- C2 witness: the round trip at the concrete alert ordinal 42 with the
decimal renderer. -/
theorem c2_crypto_roundtrip_witness :
    toStringTransportErrorCode Nat.repr (TransportErrorCode.CRYPTO_ERROR + 42) =
      ("Crypto error: " ++ Nat.repr 42, 0)
    ∧ (TransportErrorCode.CRYPTO_ERROR + 42) - TransportErrorCode.CRYPTO_ERROR = 42
    ∧ ((TransportErrorCode.CRYPTO_ERROR + 42 +
          (uint64Mod - TransportErrorCode.CRYPTO_ERROR)) % uint64Mod) % uint8Mod = 42 :=
  c2_crypto_roundtrip Nat.repr 42 (by decide)

/-- C3 counterexample: the raw value 9 matches no named case and lies outside
the inclusive sub-range [`CRYPTO_ERROR`, `CRYPTO_ERROR_MAX`], yet rendering
does not return "Unknown error": the crypto fallback is taken instead. -/
theorem c3_unknown_counterexample :
    9 ∉ namedTransportCodes ∧
    ¬ (TransportErrorCode.CRYPTO_ERROR ≤ 9 ∧ 9 ≤ TransportErrorCode.CRYPTO_ERROR_MAX) ∧
    toStringTransportErrorCode Nat.repr 9 = ("Crypto error: 9", 0) ∧
    toStringTransportErrorCode Nat.repr 9 ≠ ("Unknown error", 1) := by
  decide

/-- C3 (amended): for every `TransportErrorCode` raw value that matches no
named case and is strictly greater than `CRYPTO_ERROR_MAX` (the actual
complement of the code's bitmask fallback, which also captures unnamed values
below `CRYPTO_ERROR`), the transport renderer returns exactly "Unknown error"
and emits exactly one diagnostic warning, and never fails or aborts. -/
theorem c3_unknown_amended (f : Nat → String) (v : Nat) (hv : v < uint64Mod)
    (h : v ∉ namedTransportCodes) (hgt : TransportErrorCode.CRYPTO_ERROR_MAX < v) :
    toStringTransportErrorCode f v = ("Unknown error", 1) := by
  rw [toStringTransportErrorCode_unnamed f v h, if_neg]
  intro hc
  have := (mask_le_iff v).mp hc
  omega

/-- C3 witness: the amended unknown fallback at the concrete out-of-range
value 0x200. -/
theorem c3_unknown_amended_witness :
    toStringTransportErrorCode (fun _ => "") 512 = ("Unknown error", 1) :=
  c3_unknown_amended (fun _ => "") 512 (by decide) (by decide) (by decide)

/-- C4 counterexample: at the unnamed raw value 66 (below `CRYPTO_ERROR`) the
crypto branch is taken, but the alert ordinal handed to the external renderer
is not `(66 - CRYPTO_ERROR)` in the wrap-around arithmetic of the underlying
64-bit type: the `static_cast` to the 8-bit alert type further truncates that
wrapped difference (to 66), so rendering with the decimal alert renderer
differs from the value the claim predicts. -/
theorem c4_mask_ordinal_counterexample :
    66 ∉ namedTransportCodes ∧
    (66 &&& TransportErrorCode.CRYPTO_ERROR_MAX = 66) ∧
    toStringTransportErrorCode Nat.repr 66 = ("Crypto error: 66", 0) ∧
    toStringTransportErrorCode Nat.repr 66 ≠
      ("Crypto error: " ++
        Nat.repr ((66 + (uint64Mod - TransportErrorCode.CRYPTO_ERROR)) % uint64Mod), 0) := by
  decide

/-- C4 (amended): for every raw value v matching no named case, the crypto
fallback branch is taken if and only if `(v AND CRYPTO_ERROR_MAX) == v`, that
is, if and only if v is numerically at most `CRYPTO_ERROR_MAX` (which includes
unnamed values strictly below `CRYPTO_ERROR`); in that branch the alert
ordinal passed to the external renderer is `(v - CRYPTO_ERROR)` computed in
the wrap-around arithmetic of the underlying 64-bit integer type and then
reduced modulo 256 by the cast into the 8-bit external alert type — i.e.
`v - CRYPTO_ERROR` for `v ≥ CRYPTO_ERROR`, and `v` itself for
`v < CRYPTO_ERROR`, since `CRYPTO_ERROR` is a multiple of 256. -/
theorem c4_mask_ordinal_amended (f : Nat → String) (v : Nat) (hv : v < uint64Mod)
    (h : v ∉ namedTransportCodes) :
    ((v &&& TransportErrorCode.CRYPTO_ERROR_MAX = v) ↔
      v ≤ TransportErrorCode.CRYPTO_ERROR_MAX)
    ∧ (v ≤ TransportErrorCode.CRYPTO_ERROR_MAX →
        toStringTransportErrorCode f v =
          ("Crypto error: " ++
            f (((v + (uint64Mod - TransportErrorCode.CRYPTO_ERROR)) % uint64Mod)
                % uint8Mod), 0))
    ∧ (v ≤ TransportErrorCode.CRYPTO_ERROR_MAX →
        ((v + (uint64Mod - TransportErrorCode.CRYPTO_ERROR)) % uint64Mod) % uint8Mod
        = if TransportErrorCode.CRYPTO_ERROR ≤ v then v - TransportErrorCode.CRYPTO_ERROR
          else v) := by
  refine ⟨mask_le_iff v, ?_, ?_⟩
  · intro hle
    rw [toStringTransportErrorCode_unnamed f v h, if_pos ((mask_le_iff v).mpr hle)]
    rfl
  · intro hle
    simp only [uint64Mod, uint8Mod, TransportErrorCode.CRYPTO_ERROR,
      TransportErrorCode.CRYPTO_ERROR_MAX] at hv hle ⊢
    split_ifs <;> omega

/-- C4 witness: the amended mask-and-ordinal behaviour at the concrete unnamed
value 48, which is strictly below `CRYPTO_ERROR` and still takes the crypto
branch, with ordinal 48. -/
theorem c4_mask_ordinal_amended_witness :
    toStringTransportErrorCode Nat.repr 48 =
      ("Crypto error: " ++
        Nat.repr (((48 + (uint64Mod - TransportErrorCode.CRYPTO_ERROR)) % uint64Mod)
            % uint8Mod), 0) :=
  (c4_mask_ordinal_amended Nat.repr 48 (by decide) (by decide)).2.1 (by decide)

/-- C5: the unified-code renderer dispatches on the active variant: an
application code equal to the "no error" sentinel renders as exactly
"No Error"; any other application code renders its decimal form; a local code
delegates to the local-code renderer; a transport code delegates to the
transport-code renderer. -/
theorem c5_unified_dispatch (f : Nat → String) (a l t : Nat)
    (ha : a ≠ GenericApplicationErrorCode.NO_ERROR) :
    toStringQuicErrorCode f
        (.ApplicationErrorCode_E GenericApplicationErrorCode.NO_ERROR) = ("No Error", 0)
    ∧ toStringQuicErrorCode f (.ApplicationErrorCode_E a) = (Nat.repr a, 0)
    ∧ toStringQuicErrorCode f (.LocalErrorCode_E l) = toStringLocalErrorCode l
    ∧ toStringQuicErrorCode f (.TransportErrorCode_E t) =
        toStringTransportErrorCode f t := by
  refine ⟨rfl, ?_, rfl, rfl⟩
  simp only [toStringQuicErrorCode, if_neg ha]

/-- C5 witness: the dispatch at the application code 7, local code 23,
transport code 3. -/
theorem c5_unified_dispatch_witness :
    toStringQuicErrorCode (fun _ => "")
        (.ApplicationErrorCode_E GenericApplicationErrorCode.NO_ERROR) = ("No Error", 0)
    ∧ toStringQuicErrorCode (fun _ => "") (.ApplicationErrorCode_E 7) = (Nat.repr 7, 0)
    ∧ toStringQuicErrorCode (fun _ => "") (.LocalErrorCode_E 23) =
        toStringLocalErrorCode 23
    ∧ toStringQuicErrorCode (fun _ => "") (.TransportErrorCode_E 3) =
        toStringTransportErrorCode (fun _ => "") 3 :=
  c5_unified_dispatch (fun _ => "") 7 23 3 (by decide)

/-- C6: the compound-pair renderer produces the kind tag ("ApplicationError: ",
"LocalError: " or "TransportError: ") according to the active variant,
followed by the rendered code and ", ", then appends the optional free text
verbatim when present; in particular `(Local(IDLE_TIMEOUT), none)` renders as
"LocalError: Idle timeout, " and
`(Transport(FLOW_CONTROL_ERROR), Some("window exceeded"))` renders as
"TransportError: Flow control error, window exceeded". -/
theorem c6_pair_rendering (f : Nat → String) (a l t : Nat) (c : QuicErrorCode)
    (s : String) :
    (toStringQuicErrorPair f (.LocalErrorCode_E l, none)).1 =
      "LocalError: " ++ (toStringLocalErrorCode l).1 ++ ", "
    ∧ (toStringQuicErrorPair f (.TransportErrorCode_E t, none)).1 =
      "TransportError: " ++ (toStringTransportErrorCode f t).1 ++ ", "
    ∧ (toStringQuicErrorPair f (.ApplicationErrorCode_E a, none)).1 =
      "ApplicationError: " ++
        (toStringQuicErrorCode f (.ApplicationErrorCode_E a)).1 ++ ", "
    ∧ (toStringQuicErrorPair f (c, some s)).1 = (toStringQuicErrorPair f (c, none)).1 ++ s
    ∧ (toStringQuicErrorPair f (.LocalErrorCode_E LocalErrorCode.IDLE_TIMEOUT, none)).1 =
      "LocalError: Idle timeout, "
    ∧ (toStringQuicErrorPair f (.TransportErrorCode_E
          TransportErrorCode.FLOW_CONTROL_ERROR, some ("window exceeded"))).1 =
      "TransportError: Flow control error, window exceeded" := by
  refine ⟨rfl, rfl, rfl, ?_, rfl, rfl⟩
  cases c <;> rfl

/-- C7: every named value in each of the three enumerations renders its
documented literal string (the two crypto boundary markers delegate to the
external renderer with ordinals 0 and 255 under the "Crypto error: " tag),
and no named value renders as "Unknown error". -/
theorem c7_named_literals (f : Nat → String) :
    (∀ v ∈ namedLocalCodes, (toStringLocalErrorCode v).1 ≠ "Unknown error")
    ∧ (∀ v ∈ namedTransportCodes, (toStringTransportErrorCode f v).1 ≠ "Unknown error")
    ∧ (toStringQuicErrorCode f
        (.ApplicationErrorCode_E GenericApplicationErrorCode.NO_ERROR)).1 = "No Error"
    ∧ (toStringLocalErrorCode LocalErrorCode.NO_ERROR).1 = "No Error"
    ∧ (toStringLocalErrorCode LocalErrorCode.CONNECT_FAILED).1 = "Connect failed"
    ∧ (toStringLocalErrorCode LocalErrorCode.CODEC_ERROR).1 = "Codec Error"
    ∧ (toStringLocalErrorCode LocalErrorCode.STREAM_CLOSED).1 = "Stream is closed"
    ∧ (toStringLocalErrorCode LocalErrorCode.STREAM_NOT_EXISTS).1 =
        "Stream does not exist"
    ∧ (toStringLocalErrorCode LocalErrorCode.CREATING_EXISTING_STREAM).1 =
        "Creating an existing stream"
    ∧ (toStringLocalErrorCode LocalErrorCode.SHUTTING_DOWN).1 = "Shutting down"
    ∧ (toStringLocalErrorCode LocalErrorCode.RESET_CRYPTO_STREAM).1 =
        "Reset the crypto stream"
    ∧ (toStringLocalErrorCode LocalErrorCode.CWND_OVERFLOW).1 = "CWND overflow"
    ∧ (toStringLocalErrorCode LocalErrorCode.INFLIGHT_BYTES_OVERFLOW).1 =
        "Inflight bytes overflow"
    ∧ (toStringLocalErrorCode LocalErrorCode.LOST_BYTES_OVERFLOW).1 =
        "Lost bytes overflow"
    ∧ (toStringLocalErrorCode LocalErrorCode.NEW_VERSION_NEGOTIATED).1 =
        "New version negotiatied"
    ∧ (toStringLocalErrorCode LocalErrorCode.INVALID_WRITE_CALLBACK).1 =
        "Invalid write callback"
    ∧ (toStringLocalErrorCode LocalErrorCode.CALLBACK_ALREADY_INSTALLED).1 =
        "Callback already installed"
    ∧ (toStringLocalErrorCode LocalErrorCode.TLS_HANDSHAKE_FAILED).1 =
        "TLS handshake failed"
    ∧ (toStringLocalErrorCode LocalErrorCode.APP_ERROR).1 = "App error"
    ∧ (toStringLocalErrorCode LocalErrorCode.INTERNAL_ERROR).1 = "Internal error"
    ∧ (toStringLocalErrorCode LocalErrorCode.TRANSPORT_ERROR).1 = "Transport error"
    ∧ (toStringLocalErrorCode LocalErrorCode.INVALID_WRITE_DATA).1 =
        "Invalid write data"
    ∧ (toStringLocalErrorCode LocalErrorCode.INVALID_STATE_TRANSITION).1 =
        "Invalid state transition"
    ∧ (toStringLocalErrorCode LocalErrorCode.CONNECTION_CLOSED).1 = "Connection closed"
    ∧ (toStringLocalErrorCode LocalErrorCode.EARLY_DATA_REJECTED).1 =
        "Early data rejected"
    ∧ (toStringLocalErrorCode LocalErrorCode.CONNECTION_RESET).1 = "Connection reset"
    ∧ (toStringLocalErrorCode LocalErrorCode.IDLE_TIMEOUT).1 = "Idle timeout"
    ∧ (toStringLocalErrorCode LocalErrorCode.PACKET_NUMBER_ENCODING).1 =
        "Packet number encoding"
    ∧ (toStringLocalErrorCode LocalErrorCode.INVALID_OPERATION).1 = "Invalid operation"
    ∧ (toStringLocalErrorCode LocalErrorCode.STREAM_LIMIT_EXCEEDED).1 =
        "Stream limit exceeded"
    ∧ (toStringLocalErrorCode LocalErrorCode.CONNECTION_ABANDONED).1 =
        "Connection abandoned"
    ∧ (toStringLocalErrorCode LocalErrorCode.KNOB_FRAME_UNSUPPORTED).1 =
        "Knob Frame Not Supported"
    ∧ (toStringTransportErrorCode f TransportErrorCode.NO_ERROR).1 = "No Error"
    ∧ (toStringTransportErrorCode f TransportErrorCode.INTERNAL_ERROR).1 =
        "Internal Error"
    ∧ (toStringTransportErrorCode f TransportErrorCode.FLOW_CONTROL_ERROR).1 =
        "Flow control error"
    ∧ (toStringTransportErrorCode f TransportErrorCode.STREAM_LIMIT_ERROR).1 =
        "Stream limit error"
    ∧ (toStringTransportErrorCode f TransportErrorCode.STREAM_STATE_ERROR).1 =
        "Stream State error"
    ∧ (toStringTransportErrorCode f TransportErrorCode.FINAL_SIZE_ERROR).1 =
        "Final offset error"
    ∧ (toStringTransportErrorCode f TransportErrorCode.FRAME_ENCODING_ERROR).1 =
        "Frame format error"
    ∧ (toStringTransportErrorCode f TransportErrorCode.TRANSPORT_PARAMETER_ERROR).1 =
        "Transport parameter error"
    ∧ (toStringTransportErrorCode f TransportErrorCode.PROTOCOL_VIOLATION).1 =
        "Protocol violation"
    ∧ (toStringTransportErrorCode f TransportErrorCode.INVALID_MIGRATION).1 =
        "Invalid migration"
    ∧ (toStringTransportErrorCode f TransportErrorCode.SERVER_BUSY).1 = "Server busy"
    ∧ (toStringTransportErrorCode f TransportErrorCode.INVALID_TOKEN).1 =
        "Invalid token"
    ∧ (toStringTransportErrorCode f TransportErrorCode.CRYPTO_ERROR).1 =
        "Crypto error: " ++ f 0
    ∧ (toStringTransportErrorCode f TransportErrorCode.CRYPTO_ERROR_MAX).1 =
        "Crypto error: " ++ f 255 := by
  have hcrypto : ∀ s : String, "Crypto error: " ++ s ≠ "Unknown error" := by
    intro s hs
    have hlen := congrArg String.length hs
    rw [String.length_append] at hlen
    have h14 : ("Crypto error: " : String).length = 14 := rfl
    have h13 : ("Unknown error" : String).length = 13 := rfl
    omega
  refine ⟨?_, ?_, rfl, rfl, rfl, rfl, rfl, rfl, rfl, rfl, rfl, rfl, rfl, rfl, rfl,
    rfl, rfl, rfl, rfl, rfl, rfl, rfl, rfl, rfl, rfl, rfl, rfl, rfl, rfl, rfl, rfl,
    rfl, rfl, rfl, rfl, rfl, rfl, rfl, rfl, rfl, rfl, rfl, rfl, rfl, rfl, rfl⟩
  · intro v hv
    fin_cases hv <;> decide
  · intro v hv
    fin_cases hv
    · exact (by decide : ("No Error" : String) ≠ "Unknown error")
    · exact (by decide : ("Internal Error" : String) ≠ "Unknown error")
    · exact (by decide : ("Server busy" : String) ≠ "Unknown error")
    · exact (by decide : ("Flow control error" : String) ≠ "Unknown error")
    · exact (by decide : ("Stream limit error" : String) ≠ "Unknown error")
    · exact (by decide : ("Stream State error" : String) ≠ "Unknown error")
    · exact (by decide : ("Final offset error" : String) ≠ "Unknown error")
    · exact (by decide : ("Frame format error" : String) ≠ "Unknown error")
    · exact (by decide : ("Transport parameter error" : String) ≠ "Unknown error")
    · exact (by decide : ("Protocol violation" : String) ≠ "Unknown error")
    · exact (by decide : ("Invalid token" : String) ≠ "Unknown error")
    · exact (by decide : ("Invalid migration" : String) ≠ "Unknown error")
    · exact hcrypto _
    · exact hcrypto _

/-- C7 witness: no-unknown-rendering at the concrete named values
IDLE_TIMEOUT (local) and FLOW_CONTROL_ERROR (transport). -/
theorem c7_named_literals_witness :
    (toStringLocalErrorCode 23).1 ≠ "Unknown error"
    ∧ (toStringTransportErrorCode (fun _ => "") 3).1 ≠ "Unknown error" :=
  ⟨(c7_named_literals (fun _ => "")).1 23 (by decide),
   (c7_named_literals (fun _ => "")).2.1 3 (by decide)⟩

/-- C8: for every `LocalErrorCode` value that matches no named case, the
local-code renderer returns exactly "Unknown error" and emits exactly one
diagnostic warning; being a total function of the raw value, it never fails
or aborts on an unrecognized code. -/
theorem c8_local_unknown_fallback (v : Nat) (h : v ∉ namedLocalCodes) :
    toStringLocalErrorCode v = ("Unknown error", 1) := by
  simp only [namedLocalCodes, List.mem_cons, List.not_mem_nil, or_false,
    LocalErrorCode.NO_ERROR, LocalErrorCode.CONNECT_FAILED, LocalErrorCode.CODEC_ERROR,
    LocalErrorCode.STREAM_CLOSED, LocalErrorCode.STREAM_NOT_EXISTS,
    LocalErrorCode.CREATING_EXISTING_STREAM, LocalErrorCode.SHUTTING_DOWN,
    LocalErrorCode.RESET_CRYPTO_STREAM, LocalErrorCode.CWND_OVERFLOW,
    LocalErrorCode.INFLIGHT_BYTES_OVERFLOW, LocalErrorCode.LOST_BYTES_OVERFLOW,
    LocalErrorCode.NEW_VERSION_NEGOTIATED, LocalErrorCode.INVALID_WRITE_CALLBACK,
    LocalErrorCode.CALLBACK_ALREADY_INSTALLED, LocalErrorCode.TLS_HANDSHAKE_FAILED,
    LocalErrorCode.APP_ERROR, LocalErrorCode.INTERNAL_ERROR,
    LocalErrorCode.TRANSPORT_ERROR, LocalErrorCode.INVALID_WRITE_DATA,
    LocalErrorCode.INVALID_STATE_TRANSITION, LocalErrorCode.CONNECTION_CLOSED,
    LocalErrorCode.EARLY_DATA_REJECTED, LocalErrorCode.CONNECTION_RESET,
    LocalErrorCode.IDLE_TIMEOUT, LocalErrorCode.PACKET_NUMBER_ENCODING,
    LocalErrorCode.INVALID_OPERATION, LocalErrorCode.STREAM_LIMIT_EXCEEDED,
    LocalErrorCode.CONNECTION_ABANDONED, LocalErrorCode.KNOB_FRAME_UNSUPPORTED] at h
  have h29 : 29 ≤ v := by omega
  simp only [toStringLocalErrorCode, LocalErrorCode.NO_ERROR,
    LocalErrorCode.CONNECT_FAILED, LocalErrorCode.CODEC_ERROR,
    LocalErrorCode.STREAM_CLOSED, LocalErrorCode.STREAM_NOT_EXISTS,
    LocalErrorCode.CREATING_EXISTING_STREAM, LocalErrorCode.SHUTTING_DOWN,
    LocalErrorCode.RESET_CRYPTO_STREAM, LocalErrorCode.CWND_OVERFLOW,
    LocalErrorCode.INFLIGHT_BYTES_OVERFLOW, LocalErrorCode.LOST_BYTES_OVERFLOW,
    LocalErrorCode.NEW_VERSION_NEGOTIATED, LocalErrorCode.INVALID_WRITE_CALLBACK,
    LocalErrorCode.CALLBACK_ALREADY_INSTALLED, LocalErrorCode.TLS_HANDSHAKE_FAILED,
    LocalErrorCode.APP_ERROR, LocalErrorCode.INTERNAL_ERROR,
    LocalErrorCode.TRANSPORT_ERROR, LocalErrorCode.INVALID_WRITE_DATA,
    LocalErrorCode.INVALID_STATE_TRANSITION, LocalErrorCode.CONNECTION_CLOSED,
    LocalErrorCode.EARLY_DATA_REJECTED, LocalErrorCode.CONNECTION_RESET,
    LocalErrorCode.IDLE_TIMEOUT, LocalErrorCode.PACKET_NUMBER_ENCODING,
    LocalErrorCode.INVALID_OPERATION, LocalErrorCode.STREAM_LIMIT_EXCEEDED,
    LocalErrorCode.CONNECTION_ABANDONED, LocalErrorCode.KNOB_FRAME_UNSUPPORTED]
  rw [if_neg (by omega : ¬ v = 0), if_neg (by omega : ¬ v = 1),
    if_neg (by omega : ¬ v = 2), if_neg (by omega : ¬ v = 3),
    if_neg (by omega : ¬ v = 4), if_neg (by omega : ¬ v = 5),
    if_neg (by omega : ¬ v = 6), if_neg (by omega : ¬ v = 7),
    if_neg (by omega : ¬ v = 8), if_neg (by omega : ¬ v = 9),
    if_neg (by omega : ¬ v = 10), if_neg (by omega : ¬ v = 11),
    if_neg (by omega : ¬ v = 12), if_neg (by omega : ¬ v = 13),
    if_neg (by omega : ¬ v = 14), if_neg (by omega : ¬ v = 15),
    if_neg (by omega : ¬ v = 16), if_neg (by omega : ¬ v = 17),
    if_neg (by omega : ¬ v = 18), if_neg (by omega : ¬ v = 19),
    if_neg (by omega : ¬ v = 20), if_neg (by omega : ¬ v = 21),
    if_neg (by omega : ¬ v = 22), if_neg (by omega : ¬ v = 23),
    if_neg (by omega : ¬ v = 24), if_neg (by omega : ¬ v = 25),
    if_neg (by omega : ¬ v = 26), if_neg (by omega : ¬ v = 27),
    if_neg (by omega : ¬ v = 28)]

/-- C8 witness: the unknown fallback at the concrete unrecognized code 100. -/
theorem c8_local_unknown_fallback_witness :
    toStringLocalErrorCode 100 = ("Unknown error", 1) :=
  c8_local_unknown_fallback 100 (by decide)

/-- C9: every exception-variant constructor preserves its arguments unchanged
(message and typed code are retrievable exactly as supplied, and construction,
being a pure total function in this embedding, never fails and has no other
effect); a transport-violation exception constructed without a frame-type
argument reports the frame-type context as absent, not as a default or zero
value. -/
theorem c9_constructors_preserve (m1 m2 m3 : String) (tc ft lc ac : Nat) :
    (QuicTransportException.mkNoFrame m1 tc).msg = m1
    ∧ (QuicTransportException.mkNoFrame m1 tc).errCode = tc
    ∧ (QuicTransportException.mkNoFrame m1 tc).frameType = none
    ∧ (QuicTransportException.mkWithFrame m1 tc ft).msg = m1
    ∧ (QuicTransportException.mkWithFrame m1 tc ft).errCode = tc
    ∧ (QuicTransportException.mkWithFrame m1 tc ft).frameType = some ft
    ∧ (QuicInternalException.mk_ m2 lc).msg = m2
    ∧ (QuicInternalException.mk_ m2 lc).errorCode = lc
    ∧ (QuicApplicationException.mk_ m3 ac).msg = m3
    ∧ (QuicApplicationException.mk_ m3 ac).errorCode = ac :=
  ⟨rfl, rfl, rfl, rfl, rfl, rfl, rfl, rfl, rfl, rfl⟩

/-- C10: for every unified error code value, exactly one of the three variants
is active (matching the reported discriminant), and the attempt-extract
accessor for each non-active variant reports absence (`none`) rather than
failing. -/
theorem c10_exactly_one_variant (c : QuicErrorCode) :
    (c.type_ = QuicErrorCodeType.ApplicationErrorCode_E
        ∧ c.asApplicationErrorCode.isSome = true
        ∧ c.asLocalErrorCode = none ∧ c.asTransportErrorCode = none)
    ∨ (c.type_ = QuicErrorCodeType.LocalErrorCode_E
        ∧ c.asLocalErrorCode.isSome = true
        ∧ c.asApplicationErrorCode = none ∧ c.asTransportErrorCode = none)
    ∨ (c.type_ = QuicErrorCodeType.TransportErrorCode_E
        ∧ c.asTransportErrorCode.isSome = true
        ∧ c.asApplicationErrorCode = none ∧ c.asLocalErrorCode = none) := by
  cases c with
  | ApplicationErrorCode_E a => exact Or.inl ⟨rfl, rfl, rfl, rfl⟩
  | LocalErrorCode_E l => exact Or.inr (Or.inl ⟨rfl, rfl, rfl, rfl⟩)
  | TransportErrorCode_E t => exact Or.inr (Or.inr ⟨rfl, rfl, rfl, rfl⟩)
